import Mathlib

/-!
Verification development for the subscription reconciliation and billing
subsystem of the django-foundation repository.

The deciding code for the checkout finalization flow, the billing gateway
client, the batch sync command and the webhook handler is present under
`src/` (`src/checkouts/views.py`, `src/helpers/billing.py`,
`src/subscriptions/management/commands/sync_user_subs.py`,
`src/customers/models.py`) and is embedded from the source.  The
reconciliation engine itself (`subscriptions/utils.py`) and the
`UserSubscription` model declaration (`subscriptions/models.py`) are not in
the source tree; where they decide a property they are modelled from the
spec, as marked in the doc comments.
-/

set_option autoImplicit false
set_option maxRecDepth 8192

namespace DjangoSaas

/-! ## Spec-modelled reconciliation engine (§4.2 of the spec) -/

/-- Subscription status values of the spec's `LocalSubscriptionRecord`
(`none, trial, active, past_due, canceled, paused, incomplete`). -/
inductive SubStatus where
  | noneSt
  | trial
  | active
  | past_due
  | canceled
  | paused
  | incomplete
deriving DecidableEq, Repr

/-- Modelled from the spec: the `LocalSubscriptionRecord` data model of §3
(the Django `UserSubscription` model in `subscriptions/models.py` is not in
the source tree).  Timestamps are abstract `Nat` instants. -/
structure LocalSubscriptionRecord where
  user_id : Nat
  plan_id : Option Nat
  remote_subscription_id : Option String
  status : SubStatus
  current_period_start : Option Nat
  current_period_end : Option Nat
  cancel_at_period_end : Bool
  user_cancelled : Bool
  last_synced_at : Option Nat
deriving DecidableEq, Repr

/-- The gateway's view of a subscription at query time (spec §3,
`RemoteSubscriptionSnapshot`). -/
structure RemoteSubscriptionSnapshot where
  remote_id : String
  status : SubStatus
  current_period_start : Option Nat
  current_period_end : Option Nat
  cancel_at_period_end : Bool
deriving DecidableEq, Repr

/-- Result of one `getSubscription` gateway call, as the reconciliation
engine observes it: a snapshot, a `NotFoundError`, or a transient
`GatewayError`.  A gateway state with no transient failures is a function
whose range avoids `transientError`. -/
inductive GatewayResponse where
  | ok (snap : RemoteSubscriptionSnapshot)
  | notFound
  | transientError
deriving DecidableEq, Repr

/-- Per-user reconciliation outcome (spec §3, `ReconciliationResult`). -/
inductive Outcome where
  | updated
  | unchanged
  | created
  | orphan_cancelled
  | error
deriving DecidableEq, Repr

/-- What one `reconcile(userId)` run produced: the resulting local record,
the outcome, and how many `getSubscription` gateway calls were made. -/
structure ReconcileResult where
  record : LocalSubscriptionRecord
  outcome : Outcome
  gatewayCalls : Nat
deriving DecidableEq, Repr

/-- Modelled from the spec: `reconcile(userId)` of the Reconciliation Engine
(§4.2; the implementation lives in `subscriptions/utils.py`, which is not in
the source tree).  Steps follow the spec's algorithm:
no remote id ⇒ `unchanged` with no gateway call; `NotFoundError` ⇒ clear the
id, set `status=canceled`, `user_cancelled=false`, outcome
`orphan_cancelled`, no retry; transient error ⇒ outcome `error`, record
untouched; otherwise compare field by field, `unchanged` (bump
`last_synced_at` only) when equal, else apply all snapshot fields and
`last_synced_at = now`, outcome `updated`.  `gw` is the gateway state
(response per remote subscription id) and `now` the current instant. -/
def reconcile (gw : String → GatewayResponse) (now : Nat)
    (r : LocalSubscriptionRecord) : ReconcileResult :=
  match r.remote_subscription_id with
  | none => ⟨r, Outcome.unchanged, 0⟩
  | some sid =>
    match gw sid with
    | GatewayResponse.notFound =>
        ⟨{ r with remote_subscription_id := none
                , status := SubStatus.canceled
                , user_cancelled := false },
         Outcome.orphan_cancelled, 1⟩
    | GatewayResponse.transientError => ⟨r, Outcome.error, 1⟩
    | GatewayResponse.ok snap =>
        if r.status = snap.status ∧
           r.current_period_start = snap.current_period_start ∧
           r.current_period_end = snap.current_period_end ∧
           r.cancel_at_period_end = snap.cancel_at_period_end then
          ⟨{ r with last_synced_at := some now }, Outcome.unchanged, 1⟩
        else
          ⟨{ r with status := snap.status
                  , current_period_start := snap.current_period_start
                  , current_period_end := snap.current_period_end
                  , cancel_at_period_end := snap.cancel_at_period_end
                  , last_synced_at := some now },
           Outcome.updated, 1⟩

/-- A concrete local record used by the closed witnesses below. -/
def exampleRecord : LocalSubscriptionRecord :=
  { user_id := 1
  , plan_id := some 2
  , remote_subscription_id := some "sub_X"
  , status := SubStatus.active
  , current_period_start := some 100
  , current_period_end := some 200
  , cancel_at_period_end := false
  , user_cancelled := false
  , last_synced_at := some 50 }

/-- A concrete snapshot matching `exampleRecord`'s fields. -/
def exampleSnapshot : RemoteSubscriptionSnapshot :=
  { remote_id := "sub_X"
  , status := SubStatus.active
  , current_period_start := some 100
  , current_period_end := some 200
  , cancel_at_period_end := false }

/-- A concrete gateway state that always answers `exampleSnapshot`. -/
def constOkGateway : String → GatewayResponse :=
  fun _ => GatewayResponse.ok exampleSnapshot

/-! ## Checkout finalization flow (src/checkouts/views.py, src/helpers/billing.py)

The stripe API is abstracted as oracles: `sessions` resolves a checkout
session id, `subs` resolves a subscription id (`none` for an unknown id —
in the source this surfaces as a falsy/absent response or a stripe error,
and every such case reaches the same per-branch error redirect with no
local write).  `cancelOk` tells whether a gateway cancellation succeeds;
the source logs and continues either way. -/

/-- A stripe subscription response as `get_checkout_customer_plan`
(src/helpers/billing.py lines 161-211) reads it: `status`,
`current_period_start`, `current_period_end`, `cancel_at_period_end`, and
`items.data[0].price.id` (the plan id, absent when the item list is empty). -/
structure StripeSubscription where
  id : String
  status : String
  current_period_start : Nat
  current_period_end : Nat
  cancel_at_period_end : Bool
  price_id : Option String
deriving DecidableEq, Repr

/-- A stripe checkout session response as the flow reads it: the `customer`
and `subscription` fields (either may be absent). -/
structure StripeCheckoutSession where
  customer : Option String
  subscription : Option String
deriving DecidableEq, Repr

/-- The dict built by `serialize_subscription_data`
(src/helpers/billing.py lines 23-37): the four subscription fields the flow
copies onto the local record. -/
structure SubscriptionData where
  current_period_start : Nat
  current_period_end : Nat
  status : String
  cancel_at_period_end : Bool
deriving DecidableEq, Repr

/-- Embedding of `serialize_subscription_data` from src/helpers/billing.py: projects the
four fields out of a subscription response (timestamp conversion is the
identity on abstract instants). -/
def serialize_subscription_data (s : StripeSubscription) : SubscriptionData :=
  { current_period_start := s.current_period_start
  , current_period_end := s.current_period_end
  , status := s.status
  , cancel_at_period_end := s.cancel_at_period_end }

/-- The dict returned by `get_checkout_customer_plan`: the three ids plus
the serialized subscription data. -/
structure CheckoutData where
  customer_id : Option String
  plan_id : Option String
  sub_stripe_id : String
  current_period_start : Nat
  current_period_end : Nat
  status : String
  cancel_at_period_end : Bool
deriving DecidableEq, Repr

/-- Embedding of `get_checkout_customer_plan` from src/helpers/billing.py lines 161-211:
retrieve the checkout session, take its `customer` and `subscription`, fail
(`None`) when the session or the subscription cannot be resolved, then
retrieve the subscription and assemble the result dict. -/
def get_checkout_customer_plan
    (sessions : String → Option StripeCheckoutSession)
    (subs : String → Option StripeSubscription)
    (session_id : String) : Option CheckoutData :=
  match sessions session_id with
  | none => none
  | some checkout_r =>
    match checkout_r.subscription with
    | none => none
    | some sub_stripe_id =>
      match subs sub_stripe_id with
      | none => none
      | some sub_r =>
        some { customer_id := checkout_r.customer
             , plan_id := sub_r.price_id
             , sub_stripe_id := sub_stripe_id
             , current_period_start :=
                 (serialize_subscription_data sub_r).current_period_start
             , current_period_end :=
                 (serialize_subscription_data sub_r).current_period_end
             , status := (serialize_subscription_data sub_r).status
             , cancel_at_period_end :=
                 (serialize_subscription_data sub_r).cancel_at_period_end }

/-- The four-field payload that `checkout_finalize_view` passes on as
`subscription_data` after popping the three ids. -/
def checkoutSubscriptionData (cd : CheckoutData) : SubscriptionData :=
  { current_period_start := cd.current_period_start
  , current_period_end := cd.current_period_end
  , status := cd.status
  , cancel_at_period_end := cd.cancel_at_period_end }

/-- The local `UserSubscription` row as the views read and write it.  The
model class itself (`subscriptions/models.py`) is not in the source tree;
the fields are the ones the source reads and writes (`subscription` foreign
key, `stripe_id`, `user_cancelled`, `status`, `current_period_start`,
`current_period_end`, `cancel_at_period_end`), matching the spec's
`LocalSubscriptionRecord`. -/
structure UserSubscriptionRec where
  subscription_fk : Option Nat
  stripe_id : Option String
  user_cancelled : Bool
  status : Option String
  current_period_start : Option Nat
  current_period_end : Option Nat
  cancel_at_period_end : Bool
deriving DecidableEq, Repr

/-- A freshly created `UserSubscription` row before the checkout defaults
are applied: every nullable field null, booleans false. -/
def freshUserSub : UserSubscriptionRec :=
  { subscription_fk := none
  , stripe_id := none
  , user_cancelled := false
  , status := none
  , current_period_start := none
  , current_period_end := none
  , cancel_at_period_end := false }

/-- The user-subscription table, keyed by user id. -/
abbrev UserSubDb := List (Nat × UserSubscriptionRec)

/-- Row lookup by user id (`UserSubscription.objects.get(user=...)` /
`get_or_create` read side). -/
def dbLookup (db : UserSubDb) (uid : Nat) : Option UserSubscriptionRec :=
  match db with
  | [] => none
  | (k, v) :: rest => if k = uid then some v else dbLookup rest uid

/-- Row upsert by user id (the `save()` write side). -/
def dbWrite (db : UserSubDb) (uid : Nat) (rec : UserSubscriptionRec) :
    UserSubDb :=
  match db with
  | [] => [(uid, rec)]
  | (k, v) :: rest =>
    if k = uid then (k, rec) :: rest else (k, v) :: dbWrite rest uid rec

/-- Python truthiness of an optional string (`None` and `""` are falsy), as
used by `not all([...])` and `if old_stripe_id`. -/
def truthyOptStr : Option String → Bool
  | none => false
  | some s => !(s == "")

/-- One-row `.filter` over a string-keyed mapping table; Django's `.get`
succeeds exactly when this has one element. -/
def djangoFilter (m : List (String × Nat)) (key : String) :
    List (String × Nat) :=
  m.filter (fun p => p.1 == key)

/-- The response the finalization flow hands back: the success redirect to
the subscription page, or an error message plus a redirect to pricing. -/
inductive FinalizeResponse where
  | successRedirect (user_id : Nat)
  | errorRedirectPricing (msg : String)
deriving DecidableEq, Repr

/-- Everything observable about one run of the finalization flow: the
resulting table, the gateway cancellation calls made (old subscription id
and whether the gateway call succeeded), the reconciliation-engine
invocations made (user ids), and the response. -/
structure FinalizeResult where
  db : UserSubDb
  cancel_calls : List (String × Bool)
  reconcile_calls : List Nat
  response : FinalizeResponse
deriving DecidableEq, Repr

/-- An error exit of the flow: message to the user, redirect to pricing, no
write, no gateway or engine call. -/
def finalizeError (db : UserSubDb) (msg : String) : FinalizeResult :=
  { db := db
  , cancel_calls := []
  , reconcile_calls := []
  , response := FinalizeResponse.errorRedirectPricing msg }

/-- Embedding of `process_user_subscription_update` from src/checkouts/views.py lines
297-383: build `updated_sub_options` (subscription fk, new stripe id,
`user_cancelled=False`, plus the four checkout data fields);
`get_or_create` the row with those defaults; when the row existed and its
old stripe id is truthy and different, call the gateway cancellation for
the old id (failure is logged and ignored); then assign all options onto
the row and save.  No reconciliation-engine call is made anywhere in the
function. -/
def process_user_subscription_update
    (db : UserSubDb) (user_id : Nat) (subscription_pk : Nat)
    (sub_stripe_id : String) (sdata : SubscriptionData)
    (cancelOk : String → Bool) : FinalizeResult :=
  let applyOptions : UserSubscriptionRec → UserSubscriptionRec :=
    fun r =>
      { r with subscription_fk := some subscription_pk
             , stripe_id := some sub_stripe_id
             , user_cancelled := false
             , current_period_start := some sdata.current_period_start
             , current_period_end := some sdata.current_period_end
             , status := some sdata.status
             , cancel_at_period_end := sdata.cancel_at_period_end }
  match dbLookup db user_id with
  | none =>
      { db := dbWrite db user_id (applyOptions freshUserSub)
      , cancel_calls := []
      , reconcile_calls := []
      , response := FinalizeResponse.successRedirect user_id }
  | some user_sub_obj =>
      let cancels : List (String × Bool) :=
        match user_sub_obj.stripe_id with
        | some old_stripe_id =>
          if old_stripe_id ≠ "" ∧ old_stripe_id ≠ sub_stripe_id then
            [(old_stripe_id, cancelOk old_stripe_id)]
          else []
        | none => []
      { db := dbWrite db user_id (applyOptions user_sub_obj)
      , cancel_calls := cancels
      , reconcile_calls := []
      , response := FinalizeResponse.successRedirect user_id }

/-- Embedding of `checkout_finalize_view` from src/checkouts/views.py lines 209-294:
read `session_id` (falsy ⇒ error), fetch the checkout data (failure ⇒
error), require all of plan id, customer id and subscription id truthy
(else error), resolve the catalog `Subscription` by price stripe id
(`DoesNotExist`/`MultipleObjectsReturned` ⇒ error), resolve the user by
customer stripe id (same), then run `process_user_subscription_update`.
Every error path leaves the table untouched. -/
def checkout_finalize_view
    (sessions : String → Option StripeCheckoutSession)
    (subs : String → Option StripeSubscription)
    (catalog : List (String × Nat))
    (customers : List (String × Nat))
    (cancelOk : String → Bool)
    (db : UserSubDb)
    (session_id : Option String) : FinalizeResult :=
  match session_id with
  | none => finalizeError db "Invalid checkout session. Please try again."
  | some sid =>
    if sid = "" then
      finalizeError db "Invalid checkout session. Please try again."
    else
      match get_checkout_customer_plan sessions subs sid with
      | none =>
        finalizeError db
          "Unable to retrieve checkout information. Please contact support."
      | some cd =>
        match cd.plan_id, cd.customer_id with
        | some plan_id, some customer_id =>
          if plan_id = "" ∨ customer_id = "" ∨ cd.sub_stripe_id = "" then
            finalizeError db "Incomplete checkout data. Please contact support."
          else
            match djangoFilter catalog plan_id with
            | [] =>
              finalizeError db "Invalid subscription plan. Please contact support."
            | [p] =>
              match djangoFilter customers customer_id with
              | [] =>
                finalizeError db "Customer not found. Please contact support."
              | [u] =>
                process_user_subscription_update db u.2 p.2 cd.sub_stripe_id
                  (checkoutSubscriptionData cd) cancelOk
              | _ =>
                finalizeError db "Error retrieving customer. Please contact support."
            | _ =>
              finalizeError db
                "Subscription configuration error. Please contact support."
        | _, _ =>
          finalizeError db "Incomplete checkout data. Please contact support."

/-- A concrete session store: `cs_1` resolves to customer `cus_1` and
subscription `sub_new`. -/
def exampleSessions : String → Option StripeCheckoutSession :=
  fun sid =>
    if sid = "cs_1" then some { customer := some "cus_1"
                              , subscription := some "sub_new" }
    else none

/-- A concrete subscription store: `sub_new` is active with price
`price_1`. -/
def exampleSubs : String → Option StripeSubscription :=
  fun sid =>
    if sid = "sub_new" then
      some { id := "sub_new"
           , status := "active"
           , current_period_start := 1000
           , current_period_end := 2000
           , cancel_at_period_end := false
           , price_id := some "price_1" }
    else none

/-- A concrete catalog: price `price_1` belongs to catalog plan 10. -/
def exampleCatalog : List (String × Nat) := [("price_1", 10)]

/-- A concrete customer table: stripe customer `cus_1` is user 1. -/
def exampleCustomers : List (String × Nat) := [("cus_1", 1)]

/-- A concrete pre-existing local row for user 1 bound to `sub_old`. -/
def exampleOldRow : UserSubscriptionRec :=
  { subscription_fk := some 9
  , stripe_id := some "sub_old"
  , user_cancelled := false
  , status := some "active"
  , current_period_start := some 10
  , current_period_end := some 20
  , cancel_at_period_end := false }

/-! ## Billing gateway client transport behaviour (src/helpers/billing.py)

Each client operation is a single stripe API call with no surrounding retry
or error-translation code.  The transport is modelled as the list of results
it would produce on successive attempts; an operation consumes the first.
A raw transport error is an HTTP status plus message, exactly what the
stripe library raises. -/

/-- The raw result of one transport attempt. -/
inductive TResult (α : Type) where
  | ok (val : α)
  | err (httpStatus : Nat) (message : String)
deriving DecidableEq, Repr

/-- A stripe customer response as `create_customer` reads it (`response.id`). -/
structure StripeCustomer where
  id : String
deriving DecidableEq, Repr

/-- Embedding of `get_subscription` from src/helpers/billing.py lines 117-121: one
`stripe.Subscription.retrieve` call; its raw result is returned, a raised
transport error propagates unchanged. -/
def get_subscription (attempts : List (TResult StripeSubscription)) :
    TResult StripeSubscription :=
  attempts.headD (TResult.err 599 "transport unavailable")

/-- Embedding of `get_checkout_session` from src/helpers/billing.py lines 110-114: one
`stripe.checkout.Session.retrieve` call, raw result returned. -/
def get_checkout_session (attempts : List (TResult StripeCheckoutSession)) :
    TResult StripeCheckoutSession :=
  attempts.headD (TResult.err 599 "transport unavailable")

/-- Embedding of `create_customer` from src/helpers/billing.py lines 40-51: one
`stripe.Customer.create` call; on success the stripe id is extracted, a
transport error propagates unchanged. -/
def create_customer (attempts : List (TResult StripeCustomer)) :
    TResult String :=
  match attempts.headD (TResult.err 599 "transport unavailable") with
  | TResult.ok r => TResult.ok r.id
  | TResult.err s m => TResult.err s m

/-- Embedding of `cancel_subscription` from src/helpers/billing.py lines 129-158: one
`stripe.Subscription.modify` call when `cancel_at_period_end` is set, else
one `stripe.Subscription.cancel` call; raw result returned either way. -/
def cancel_subscription (cancel_at_period_end : Bool)
    (modifyAttempts cancelAttempts : List (TResult StripeSubscription)) :
    TResult StripeSubscription :=
  if cancel_at_period_end then
    modifyAttempts.headD (TResult.err 599 "transport unavailable")
  else
    cancelAttempts.headD (TResult.err 599 "transport unavailable")

/-- The spec's `GatewayError{code, message, transient}` (§4.1). -/
structure GatewayError where
  code : Nat
  message : String
  transient : Bool
deriving DecidableEq, Repr

/-- Whether an HTTP status is a 5xx server error. -/
def is5xx (status : Nat) : Bool :=
  decide (500 ≤ status) && decide (status < 600)

/-- Modelled from the spec (refinement reference, §4.1 wording): a bounded
retry loop over the transport — retry transient/5xx failures while retries
remain, never retry 4xx, and surface `GatewayError` instead of the raw
error on exhaustion.  `n` is the number of retries left. -/
def spec_gateway_call_go {α : Type} :
    List (TResult α) → Nat → Except GatewayError α
  | [], _ => Except.error ⟨599, "transport unavailable", true⟩
  | TResult.ok v :: _, _ => Except.ok v
  | TResult.err s m :: rest, n + 1 =>
      if is5xx s then spec_gateway_call_go rest n
      else Except.error ⟨s, m, false⟩
  | TResult.err s m :: _, 0 => Except.error ⟨s, m, is5xx s⟩

/-- Modelled from the spec: one gateway operation under the spec's §4.1
contract — initial attempt plus up to 2 retries on transient/5xx. -/
def spec_gateway_call {α : Type} (attempts : List (TResult α)) :
    Except GatewayError α :=
  spec_gateway_call_go attempts 2

/-- The concrete stripe subscription response used by the gateway witnesses. -/
def exampleStripeSub : StripeSubscription :=
  { id := "sub_new"
  , status := "active"
  , current_period_start := 1000
  , current_period_end := 2000
  , cancel_at_period_end := false
  , price_id := some "price_1" }

/-! ## Checkout redirect and the billing-cycle anchor (src/checkouts/views.py) -/

/-- The parameter names of `start_checkout_session` as declared in
src/helpers/billing.py lines 89-95. -/
def start_checkout_session_param_names : List String :=
  ["customer_id", "success_url", "cancel_url", "price_stripe_id", "raw"]

/-- The keyword arguments `checkout_redirect_view` passes to
`start_checkout_session` at src/checkouts/views.py lines 172-179 (the first
argument is positional; `billing_cycle_anchor` is always passed, whether or
not the user has an active subscription). -/
def checkout_redirect_call_keywords : List String :=
  ["success_url", "cancel_url", "price_stripe_id", "billing_cycle_anchor",
   "raw"]

/-- The keywords of a Python call that match no declared parameter name; the
call raises `TypeError` before the body runs exactly when this is
nonempty. -/
def unexpected_keywords (paramNames keywords : List String) : List String :=
  keywords.filter (fun k => !(paramNames.contains k))

/-- The user-visible outcome of the session-start step of
`checkout_redirect_view`. -/
inductive CheckoutRedirectOutcome where
  | redirectToCheckout (url : String)
  | redirectToPricing (msg : String)
deriving DecidableEq, Repr

/-- The session-start step of `checkout_redirect_view`
(src/checkouts/views.py lines 170-191): the keyword call to
`start_checkout_session` binds only if every keyword matches a declared
parameter; a `TypeError` from an unexpected keyword is caught by the
surrounding `except Exception` and turned into an error message plus a
redirect to pricing.  `checkout_url` is what a bound call would return. -/
def checkout_redirect_start_step (checkout_url : String) :
    CheckoutRedirectOutcome :=
  if unexpected_keywords start_checkout_session_param_names
      checkout_redirect_call_keywords = [] then
    CheckoutRedirectOutcome.redirectToCheckout checkout_url
  else
    CheckoutRedirectOutcome.redirectToPricing
      "Unable to start checkout session. Please try again."

/-! ## Batch sync command
(src/subscriptions/management/commands/sync_user_subs.py) -/

/-- Django `self.style` severities used by the command's stdout writes. -/
inductive MsgStyle where
  | success
  | warning
  | error
deriving DecidableEq, Repr

/-- What one `Command.handle` run produced: the styled status messages
written and whether `handle` re-raised (a management command that raises
exits non-zero; a normal return exits 0). -/
structure HandleResult where
  messages : List (MsgStyle × String)
  raised : Bool
deriving DecidableEq, Repr

/-- Embedding of `Command.handle` from
src/subscriptions/management/commands/sync_user_subs.py lines 43-106.  The
collaborators `subs_utils.clear_dangling_subs` and
`subs_utils.refresh_active_users_subscriptions` live in
`subscriptions/utils.py`, which is not in the source tree; each call's
outcome is an input (`Except.error` means the call raised).  In sync mode a
`True` return yields a success message, `False` a warning, and a raise is
reported and re-raised (lines 102-106).  The informational filter-echo
writes are omitted; the styled status messages are kept. -/
def sync_user_subs_handle (clear_dangling : Bool)
    (clearResult : Except String Unit)
    (refreshResult : Except String Bool) : HandleResult :=
  if clear_dangling then
    match clearResult with
    | Except.ok _ =>
      ⟨[(MsgStyle.success, "Successfully cleared dangling subscriptions")],
       false⟩
    | Except.error e =>
      ⟨[(MsgStyle.error, "Error clearing dangling subscriptions: " ++ e)],
       true⟩
  else
    match refreshResult with
    | Except.ok true =>
      ⟨[(MsgStyle.success, "Successfully synced all subscriptions")], false⟩
    | Except.ok false =>
      ⟨[(MsgStyle.warning, "Some subscriptions could not be updated")], false⟩
    | Except.error e =>
      ⟨[(MsgStyle.error, "Error syncing subscriptions: " ++ e)], true⟩

/-! ## Stripe webhook handler (src/customers/models.py)

`handle_subscription_webhook` mixes three Python numeric runtime types:
JSON integers, the `float` produced by true division (`/ 100`), and the
`decimal.Decimal` that Django `DecimalField` values load as.  Python
permits Decimal/int arithmetic but raises `TypeError` on any Decimal/float
operation, so the runtime type tags decide whether a statement raises. -/

/-- A Python number as it flows through the webhook handler: an exact
magnitude tagged with its runtime type (float rounding is not modelled —
only the tag decides whether an operation raises). -/
inductive PyNum where
  | pyInt (v : ℤ)
  | pyFloat (v : ℚ)
  | pyDecimal (v : ℚ)
deriving DecidableEq, Repr

/-- Python `+` on numbers: int and float mix freely, Decimal mixes with int,
and Decimal with float raises `TypeError` (`none`). -/
def pyAdd : PyNum → PyNum → Option PyNum
  | PyNum.pyInt a, PyNum.pyInt b => some (PyNum.pyInt (a + b))
  | PyNum.pyInt a, PyNum.pyFloat b => some (PyNum.pyFloat ((a : ℚ) + b))
  | PyNum.pyFloat a, PyNum.pyInt b => some (PyNum.pyFloat (a + (b : ℚ)))
  | PyNum.pyFloat a, PyNum.pyFloat b => some (PyNum.pyFloat (a + b))
  | PyNum.pyInt a, PyNum.pyDecimal b => some (PyNum.pyDecimal ((a : ℚ) + b))
  | PyNum.pyDecimal a, PyNum.pyInt b => some (PyNum.pyDecimal (a + (b : ℚ)))
  | PyNum.pyDecimal a, PyNum.pyDecimal b => some (PyNum.pyDecimal (a + b))
  | PyNum.pyDecimal _, PyNum.pyFloat _ => none
  | PyNum.pyFloat _, PyNum.pyDecimal _ => none

/-- Python `> 0` on the numbers used here. -/
def pyGtZero : PyNum → Bool
  | PyNum.pyInt v => decide (0 < v)
  | PyNum.pyFloat v => decide (0 < v)
  | PyNum.pyDecimal v => decide (0 < v)

/-- The `Customer` row fields the webhook handler touches
(src/customers/models.py): stripe customer id, the `lifetime_value`
`DecimalField` (loads as a Decimal-typed number), and the subscription
status. -/
structure Customer where
  stripe_id : Option String
  lifetime_value : PyNum
  subscription_status : String
deriving DecidableEq, Repr

/-- The customer table. -/
abbrev CustomerDb := List Customer

/-- The match set of `Customer.objects.get(stripe_id=customer_id)`; the
`.get` succeeds exactly when this has one element (`DoesNotExist` and
`MultipleObjectsReturned` both end in a `False` return with no change). -/
def matchingCustomers (db : CustomerDb) (cid : String) : CustomerDb :=
  db.filter (fun c => decide (c.stripe_id = some cid))

/-- The structurally validated webhook payload `data.object` as the handler
reads it: `customer`, `status`, and `amount_paid` (defaulting to 0,
JSON-integer cents). -/
structure WebhookEventData where
  customer : Option String
  status : Option String
  amount_paid : Int
deriving DecidableEq, Repr

/-- A webhook event: its `type` string and payload. -/
structure WebhookEvent where
  event_type : String
  data : WebhookEventData
deriving DecidableEq, Repr

/-- A placeholder row; never selected (the handler only reads it under a
uniqueness guard that pins the real match). -/
def placeholderCustomer : Customer :=
  { stripe_id := none
  , lifetime_value := PyNum.pyInt 0
  , subscription_status := "none" }

/-- Character-list recursion for `pyStartsWith`. -/
def pyStartsWithAux : List Char → List Char → Bool
  | _, [] => true
  | [], _ :: _ => false
  | c :: cs, p :: ps => c == p && pyStartsWithAux cs ps

/-- Python `str.startswith`, computed on the character lists of the two
strings. -/
def pyStartsWith (s pre : String) : Bool :=
  pyStartsWithAux s.data pre.data

/-- Embedding of `handle_subscription_webhook` from src/customers/models.py lines
524-572.  `customer.subscription.*` events with truthy customer and status
set the matched customer's subscription status and return True.
`invoice.*` events compute `amount_paid = data.get("amount_paid", 0) / 100`
— a float, by Python true division — and, when the customer id is truthy
and the amount positive, run `customer.lifetime_value += amount_paid` on
the matched customer; with a Decimal-typed `lifetime_value` that mixed
addition raises `TypeError`, which the function's outer `except` turns into
a `False` return with no save.  Every no-match, falsy-field or
unhandled-type path returns `False` with the table unchanged. -/
def handle_subscription_webhook (db : CustomerDb) (ev : WebhookEvent) :
    Bool × CustomerDb :=
  if pyStartsWith ev.event_type "customer.subscription." then
    match ev.data.customer, ev.data.status with
    | some cid, some st =>
      if cid ≠ "" ∧ st ≠ "" then
        if (matchingCustomers db cid).length = 1 then
          (true, db.map (fun c =>
            if c.stripe_id = some cid then
              { c with subscription_status := st }
            else c))
        else (false, db)
      else (false, db)
    | _, _ => (false, db)
  else if pyStartsWith ev.event_type "invoice." then
    let amount_paid : PyNum :=
      PyNum.pyFloat ((ev.data.amount_paid : ℚ) / 100)
    match ev.data.customer with
    | some cid =>
      if cid ≠ "" ∧ pyGtZero amount_paid = true then
        if (matchingCustomers db cid).length = 1 then
          match pyAdd
              ((matchingCustomers db cid).headD placeholderCustomer).lifetime_value
              amount_paid with
          | some v => (true, db.map (fun c =>
              if c.stripe_id = some cid then { c with lifetime_value := v }
              else c))
          | none => (false, db)
        else (false, db)
      else (false, db)
    | none => (false, db)
  else (false, db)

/-- A concrete invoice event: 500 cents paid by `cus_1`. -/
def exampleInvoiceEvent : WebhookEvent :=
  { event_type := "invoice.payment_succeeded"
  , data := { customer := some "cus_1", status := none, amount_paid := 500 } }

/-- A concrete customer row for `cus_1` with a Decimal lifetime value of
zero, as loaded from the database. -/
def exampleCustomerRow : Customer :=
  { stripe_id := some "cus_1"
  , lifetime_value := PyNum.pyDecimal 0
  , subscription_status := "active" }

end DjangoSaas

namespace DjangoSaas

/-- C1: for a local record holding a non-null `remote_subscription_id`, when
the gateway reports the subscription as gone (`NotFoundError`), `reconcile`
clears the local id, sets status to canceled with `user_cancelled = false`,
returns outcome `orphan_cancelled`, and makes exactly one gateway call (no
retry). -/
theorem reconcile_notFound_orphan_cancels
    (gw : String → GatewayResponse) (now : Nat)
    (r : LocalSubscriptionRecord) (sid : String)
    (hid : r.remote_subscription_id = some sid)
    (hgw : gw sid = GatewayResponse.notFound) :
    reconcile gw now r =
      ⟨{ r with remote_subscription_id := none
              , status := SubStatus.canceled
              , user_cancelled := false },
       Outcome.orphan_cancelled, 1⟩ := by
  simp only [reconcile, hid, hgw]

/-- Closed witness for `reconcile_notFound_orphan_cancels`: a gateway that
answers `NotFoundError` for `sub_X` against a record bound to `sub_X`. -/
theorem reconcile_notFound_orphan_cancels_witness :
    reconcile (fun _ => GatewayResponse.notFound) 7 exampleRecord =
      ⟨{ exampleRecord with remote_subscription_id := none
                          , status := SubStatus.canceled
                          , user_cancelled := false },
       Outcome.orphan_cancelled, 1⟩ :=
  reconcile_notFound_orphan_cancels (fun _ => GatewayResponse.notFound) 7
    exampleRecord "sub_X" rfl rfl

/-- C2: with an unchanged gateway state free of transient failures,
running `reconcile` a second time in succession yields outcome `unchanged`
and leaves every field of the local record exactly as the first run left it
(both runs observe the same clock instant `now`). -/
theorem reconcile_idempotent
    (gw : String → GatewayResponse) (now : Nat)
    (r : LocalSubscriptionRecord)
    (hgw : ∀ s, gw s ≠ GatewayResponse.transientError) :
    (reconcile gw now (reconcile gw now r).record).outcome = Outcome.unchanged ∧
    (reconcile gw now (reconcile gw now r).record).record =
      (reconcile gw now r).record := by
  rcases hid : r.remote_subscription_id with _ | sid
  · simp [reconcile, hid]
  · cases hresp : gw sid with
    | ok snap =>
      by_cases hsame :
        r.status = snap.status ∧
        r.current_period_start = snap.current_period_start ∧
        r.current_period_end = snap.current_period_end ∧
        r.cancel_at_period_end = snap.cancel_at_period_end
      · simp [reconcile, hid, hresp, hsame]
      · simp [reconcile, hid, hresp, hsame]
    | notFound => simp [reconcile, hid, hresp]
    | transientError => exact absurd hresp (hgw sid)

/-- Closed witness for `reconcile_idempotent`: a gateway answering a fixed
snapshot (never a transient error), run twice on `exampleRecord`. -/
theorem reconcile_idempotent_witness :
    (∀ s, constOkGateway s ≠ GatewayResponse.transientError) ∧
    (reconcile constOkGateway 7
        (reconcile constOkGateway 7 exampleRecord).record).outcome =
      Outcome.unchanged :=
  ⟨fun _ h => GatewayResponse.noConfusion h,
   (reconcile_idempotent constOkGateway 7 exampleRecord
      (fun _ h => GatewayResponse.noConfusion h)).1⟩

theorem dbLookup_dbWrite_self (db : UserSubDb) (uid : Nat)
    (rec : UserSubscriptionRec) :
    dbLookup (dbWrite db uid rec) uid = some rec := by
  induction db with
  | nil => simp [dbWrite, dbLookup]
  | cons hd tl ih =>
    obtain ⟨k, v⟩ := hd
    by_cases h : k = uid
    · simp [dbWrite, dbLookup, h]
    · simp [dbWrite, dbLookup, h, ih]

theorem process_writes_binding (db : UserSubDb) (user_id subscription_pk : Nat)
    (sub_stripe_id : String) (sdata : SubscriptionData)
    (cancelOk : String → Bool) :
    (process_user_subscription_update db user_id subscription_pk sub_stripe_id
        sdata cancelOk).reconcile_calls = [] ∧
    ∃ rec,
      dbLookup (process_user_subscription_update db user_id subscription_pk
          sub_stripe_id sdata cancelOk).db user_id = some rec ∧
      rec.stripe_id = some sub_stripe_id ∧
      rec.status = some sdata.status ∧
      rec.current_period_start = some sdata.current_period_start ∧
      rec.current_period_end = some sdata.current_period_end ∧
      rec.cancel_at_period_end = sdata.cancel_at_period_end := by
  unfold process_user_subscription_update
  cases hlk : dbLookup db user_id with
  | none =>
    exact ⟨rfl, _, dbLookup_dbWrite_self db user_id _, rfl, rfl, rfl, rfl, rfl⟩
  | some old =>
    exact ⟨rfl, _, dbLookup_dbWrite_self db user_id _, rfl, rfl, rfl, rfl, rfl⟩

/-- C3: when the user already has a row bound to a different, non-empty
`sub_old` and finalization arrives with `sub_new`, the row ends up bound to
`sub_new`, exactly one gateway cancellation call is made for `sub_old`, and
the outcome of that cancellation call (success or failure) has no effect on
the written row. -/
theorem checkout_rebind_cancels_old
    (db : UserSubDb) (uid subscription_pk : Nat) (sub_old sub_new : String)
    (sdata : SubscriptionData) (cancelOk : String → Bool)
    (old : UserSubscriptionRec)
    (hlk : dbLookup db uid = some old)
    (hold : old.stripe_id = some sub_old)
    (hne : sub_old ≠ sub_new) (hnn : sub_old ≠ "") :
    (∃ rec,
      dbLookup (process_user_subscription_update db uid subscription_pk
          sub_new sdata cancelOk).db uid = some rec ∧
      rec.stripe_id = some sub_new) ∧
    (process_user_subscription_update db uid subscription_pk sub_new sdata
        cancelOk).cancel_calls = [(sub_old, cancelOk sub_old)] ∧
    (process_user_subscription_update db uid subscription_pk sub_new sdata
        cancelOk).db =
      (process_user_subscription_update db uid subscription_pk sub_new sdata
        (fun _ => false)).db := by
  unfold process_user_subscription_update
  rw [hlk]
  simp only [hold]
  rw [if_pos ⟨hnn, hne⟩]
  exact ⟨⟨_, dbLookup_dbWrite_self db uid _, rfl⟩, rfl, trivial⟩

/-- Closed witness for `checkout_rebind_cancels_old`: user 1 bound to
`sub_old`, finalization for `sub_new`, cancellation succeeding. -/
theorem checkout_rebind_cancels_old_witness :
    (∃ rec,
      dbLookup (process_user_subscription_update [(1, exampleOldRow)] 1 10
          "sub_new" ⟨1000, 2000, "active", false⟩ (fun _ => true)).db 1 =
        some rec ∧
      rec.stripe_id = some "sub_new") ∧
    (process_user_subscription_update [(1, exampleOldRow)] 1 10 "sub_new"
        ⟨1000, 2000, "active", false⟩ (fun _ => true)).cancel_calls =
      [("sub_old", true)] ∧
    (process_user_subscription_update [(1, exampleOldRow)] 1 10 "sub_new"
        ⟨1000, 2000, "active", false⟩ (fun _ => true)).db =
      (process_user_subscription_update [(1, exampleOldRow)] 1 10 "sub_new"
        ⟨1000, 2000, "active", false⟩ (fun _ => false)).db :=
  checkout_rebind_cancels_old [(1, exampleOldRow)] 1 10 "sub_old" "sub_new"
    ⟨1000, 2000, "active", false⟩ (fun _ => true) exampleOldRow rfl rfl
    (by decide) (by decide)

/-- C5: when the retrieved session lacks a truthy customer id, lacks a
subscription id, or the plan cannot be resolved (no price id on the
subscription, or no catalog plan for it), finalization answers with an
error redirect and writes nothing: the table is exactly as before. -/
theorem finalize_missing_data_no_write
    (sessions : String → Option StripeCheckoutSession)
    (subs : String → Option StripeSubscription)
    (catalog customers : List (String × Nat))
    (cancelOk : String → Bool) (db : UserSubDb)
    (sid : String) (ck : StripeCheckoutSession)
    (hsid : sid ≠ "")
    (hs : sessions sid = some ck)
    (h : truthyOptStr ck.customer = false ∨ ck.subscription = none ∨
         (∃ s sub_r, ck.subscription = some s ∧ subs s = some sub_r ∧
            (truthyOptStr sub_r.price_id = false ∨
             (∃ pid, sub_r.price_id = some pid ∧
                djangoFilter catalog pid = [])))) :
    (checkout_finalize_view sessions subs catalog customers cancelOk db
        (some sid)).db = db ∧
    ∃ m, (checkout_finalize_view sessions subs catalog customers cancelOk db
        (some sid)).response = FinalizeResponse.errorRedirectPricing m := by
  rcases h with hcust | hsubn | ⟨s, sub_r, hsub, hsubr, hplan⟩
  · rcases hcksub : ck.subscription with _ | s
    · simp [checkout_finalize_view, get_checkout_customer_plan,
        finalizeError, hs, hcksub, hsid]
    · rcases hsubr : subs s with _ | sub_r
      · simp [checkout_finalize_view, get_checkout_customer_plan,
          finalizeError, hs, hcksub, hsubr, hsid]
      · rcases hck : ck.customer with _ | c
        · rcases hpid : sub_r.price_id with _ | pid
          · simp [checkout_finalize_view, get_checkout_customer_plan,
              finalizeError, hs, hcksub, hsubr, hsid, hck, hpid]
          · simp [checkout_finalize_view, get_checkout_customer_plan,
              finalizeError, hs, hcksub, hsubr, hsid, hck, hpid]
        · rw [hck] at hcust
          simp only [truthyOptStr, Bool.not_eq_false'] at hcust
          have hc : c = "" := by simpa using hcust
          rcases hpid : sub_r.price_id with _ | pid
          · simp [checkout_finalize_view, get_checkout_customer_plan,
              finalizeError, hs, hcksub, hsubr, hsid, hck, hpid]
          · simp [checkout_finalize_view, get_checkout_customer_plan,
              finalizeError, hs, hcksub, hsubr, hsid, hck, hpid, hc]
  · simp [checkout_finalize_view, get_checkout_customer_plan,
      finalizeError, hs, hsubn, hsid]
  · rcases hplan with hpnone | ⟨pid, hpid, hcat⟩
    · rcases hpn : sub_r.price_id with _ | p
      · simp [checkout_finalize_view, get_checkout_customer_plan,
          finalizeError, hs, hsub, hsubr, hsid, hpn]
      · rw [hpn] at hpnone
        simp only [truthyOptStr, Bool.not_eq_false'] at hpnone
        have hp : p = "" := by simpa using hpnone
        rcases hck : ck.customer with _ | c
        · simp [checkout_finalize_view, get_checkout_customer_plan,
            finalizeError, hs, hsub, hsubr, hsid, hpn, hck]
        · simp [checkout_finalize_view, get_checkout_customer_plan,
            finalizeError, hs, hsub, hsubr, hsid, hpn, hck, hp]
    · rcases hck : ck.customer with _ | c
      · simp [checkout_finalize_view, get_checkout_customer_plan,
          finalizeError, hs, hsub, hsubr, hsid, hpid, hck]
      · by_cases hc : c = ""
        · simp [checkout_finalize_view, get_checkout_customer_plan,
            finalizeError, hs, hsub, hsubr, hsid, hpid, hck, hc]
        · by_cases hp : pid = ""
          · simp [checkout_finalize_view, get_checkout_customer_plan,
              finalizeError, hs, hsub, hsubr, hsid, hpid, hck, hp]
          · by_cases hse : s = ""
            · subst hse
              simp [checkout_finalize_view, get_checkout_customer_plan,
                finalizeError, hs, hsub, hsubr, hsid, hpid, hck, hc, hp]
            · simp [checkout_finalize_view, get_checkout_customer_plan,
                finalizeError, hs, hsub, hsubr, hsid, hpid, hck, hc, hp, hse,
                hcat]

/-- Closed witness for `finalize_missing_data_no_write`: a session whose
customer field is absent. -/
theorem finalize_missing_data_no_write_witness :
    (checkout_finalize_view
        (fun _ => some { customer := none, subscription := some "sub_new" })
        exampleSubs exampleCatalog exampleCustomers (fun _ => true)
        [(1, exampleOldRow)] (some "cs_1")).db = [(1, exampleOldRow)] ∧
    ∃ m, (checkout_finalize_view
        (fun _ => some { customer := none, subscription := some "sub_new" })
        exampleSubs exampleCatalog exampleCustomers (fun _ => true)
        [(1, exampleOldRow)] (some "cs_1")).response =
      FinalizeResponse.errorRedirectPricing m :=
  finalize_missing_data_no_write
    (fun _ => some { customer := none, subscription := some "sub_new" })
    exampleSubs exampleCatalog exampleCustomers (fun _ => true)
    [(1, exampleOldRow)] "cs_1"
    { customer := none, subscription := some "sub_new" }
    (by decide) rfl (Or.inl rfl)

/-- C4 counterexample: a complete, successful finalization (user 1, session
`cs_1` bound to `sub_new`) writes the new binding but invokes the
reconciliation engine zero times — there is no `reconcile(userId)` call
after the binding is written. -/
theorem finalize_makes_no_reconcile_call :
    (checkout_finalize_view exampleSessions exampleSubs exampleCatalog
        exampleCustomers (fun _ => true) [(1, exampleOldRow)]
        (some "cs_1")).reconcile_calls = [] ∧
    dbLookup (checkout_finalize_view exampleSessions exampleSubs
        exampleCatalog exampleCustomers (fun _ => true) [(1, exampleOldRow)]
        (some "cs_1")).db 1 =
      some { subscription_fk := some 10
           , stripe_id := some "sub_new"
           , user_cancelled := false
           , status := some "active"
           , current_period_start := some 1000
           , current_period_end := some 2000
           , cancel_at_period_end := false } := by
  decide

/-- C4 as amended: after a successful finalization the row's period and
status fields equal the fields of the subscription retrieved from the
gateway during `get_checkout_customer_plan` (the canonical remote state,
applied directly in the same write as the binding), and no
reconciliation-engine call is made. -/
theorem finalize_fields_from_retrieved_subscription
    (sessions : String → Option StripeCheckoutSession)
    (subs : String → Option StripeSubscription)
    (catalog customers : List (String × Nat))
    (cancelOk : String → Bool) (db : UserSubDb)
    (sid : String) (ck : StripeCheckoutSession) (s : String)
    (sub_r : StripeSubscription) (pid cust : String)
    (cp cu : String × Nat)
    (hsid : sid ≠ "")
    (hs : sessions sid = some ck)
    (hcust : ck.customer = some cust) (hcustne : cust ≠ "")
    (hsub : ck.subscription = some s) (hsne : s ≠ "")
    (hsubr : subs s = some sub_r)
    (hpid : sub_r.price_id = some pid) (hpidne : pid ≠ "")
    (hcat : djangoFilter catalog pid = [cp])
    (hcus : djangoFilter customers cust = [cu]) :
    (checkout_finalize_view sessions subs catalog customers cancelOk db
        (some sid)).reconcile_calls = [] ∧
    ∃ rec,
      dbLookup (checkout_finalize_view sessions subs catalog customers
          cancelOk db (some sid)).db cu.2 = some rec ∧
      rec.stripe_id = some s ∧
      rec.status = some sub_r.status ∧
      rec.current_period_start = some sub_r.current_period_start ∧
      rec.current_period_end = some sub_r.current_period_end ∧
      rec.cancel_at_period_end = sub_r.cancel_at_period_end := by
  have hv : checkout_finalize_view sessions subs catalog customers cancelOk db
      (some sid) =
      process_user_subscription_update db cu.2 cp.2 s
        { current_period_start := sub_r.current_period_start
        , current_period_end := sub_r.current_period_end
        , status := sub_r.status
        , cancel_at_period_end := sub_r.cancel_at_period_end } cancelOk := by
    simp [checkout_finalize_view, get_checkout_customer_plan, hs, hsub, hsubr,
      hsid, hpid, hcust, hcustne, hsne, hpidne, hcat, hcus,
      checkoutSubscriptionData, serialize_subscription_data]
  rw [hv]
  exact process_writes_binding db cu.2 cp.2 s _ cancelOk

/-- Closed witness for `finalize_fields_from_retrieved_subscription` on the
example stores. -/
theorem finalize_fields_from_retrieved_subscription_witness :
    (checkout_finalize_view exampleSessions exampleSubs exampleCatalog
        exampleCustomers (fun _ => true) [(1, exampleOldRow)]
        (some "cs_1")).reconcile_calls = [] ∧
    ∃ rec,
      dbLookup (checkout_finalize_view exampleSessions exampleSubs
          exampleCatalog exampleCustomers (fun _ => true) [(1, exampleOldRow)]
          (some "cs_1")).db (("cus_1", 1) : String × Nat).2 = some rec ∧
      rec.stripe_id = some "sub_new" ∧
      rec.status = some "active" ∧
      rec.current_period_start = some 1000 ∧
      rec.current_period_end = some 2000 ∧
      rec.cancel_at_period_end = false :=
  finalize_fields_from_retrieved_subscription exampleSessions exampleSubs
    exampleCatalog exampleCustomers (fun _ => true) [(1, exampleOldRow)]
    "cs_1" { customer := some "cus_1", subscription := some "sub_new" }
    "sub_new"
    { id := "sub_new", status := "active", current_period_start := 1000
    , current_period_end := 2000, cancel_at_period_end := false
    , price_id := some "price_1" }
    "price_1" "cus_1" ("price_1", 10) ("cus_1", 1)
    (by decide) rfl rfl (by decide) rfl (by decide) rfl rfl (by decide)
    (by decide) (by decide)

/-- C6 counterexample: with a transport whose first attempt fails with a
transient 503 and whose second attempt would succeed, `get_subscription`
returns the raw 503 transport error — no retry happens and no
`GatewayError` is surfaced — whereas the spec's §4.1 retry contract
(`spec_gateway_call`) would retry and succeed on the same transport. -/
theorem gateway_no_retry_counterexample :
    get_subscription
        [TResult.err 503 "service unavailable", TResult.ok exampleStripeSub] =
      TResult.err 503 "service unavailable" ∧
    spec_gateway_call
        [TResult.err 503 "service unavailable", TResult.ok exampleStripeSub] =
      Except.ok exampleStripeSub := by
  constructor
  · rfl
  · simp [spec_gateway_call, spec_gateway_call_go, is5xx]

/-- C6 as amended: every gateway client operation (create customer, get
checkout session, get subscription, cancel subscription) makes exactly one
transport call and returns its raw result unchanged — transport errors
propagate as-is, with no retry and no `GatewayError` wrapping. -/
theorem gateway_ops_single_call_raw :
    (∀ (a : TResult StripeSubscription) rest,
      get_subscription (a :: rest) = a) ∧
    (∀ (a : TResult StripeCheckoutSession) rest,
      get_checkout_session (a :: rest) = a) ∧
    (∀ (a : TResult StripeSubscription) rest other,
      cancel_subscription true (a :: rest) other = a) ∧
    (∀ (a : TResult StripeSubscription) rest other,
      cancel_subscription false other (a :: rest) = a) ∧
    (∀ (c : StripeCustomer) rest,
      create_customer (TResult.ok c :: rest) = TResult.ok c.id) ∧
    (∀ (s : Nat) (m : String) rest,
      create_customer (TResult.err s m :: rest) = TResult.err s m) :=
  ⟨fun _ _ => rfl, fun _ _ => rfl, fun _ _ _ => rfl, fun _ _ _ => rfl,
   fun _ _ => rfl, fun _ _ _ => rfl⟩

/-- C7: the keyword call in `checkout_redirect_view` passes
`billing_cycle_anchor`, which is not among `start_checkout_session`'s
parameters, so the call raises `TypeError` before any session is started;
the surrounding handler catches it and every checkout redirect ends at the
pricing page with an error message instead of the checkout URL — the claim
that the call succeeds with the anchor argument fails on the code. -/
theorem checkout_redirect_anchor_keyword_rejected :
    unexpected_keywords start_checkout_session_param_names
        checkout_redirect_call_keywords = ["billing_cycle_anchor"] ∧
    ∀ url, checkout_redirect_start_step url =
      CheckoutRedirectOutcome.redirectToPricing
        "Unable to start checkout session. Please try again." := by
  refine ⟨by decide, fun url => ?_⟩
  simp [checkout_redirect_start_step, unexpected_keywords,
    start_checkout_session_param_names, checkout_redirect_call_keywords]

/-- C8: in sync mode, a completed refresh that reports partial per-user
failures (`False`) yields a warning and a normal return (exit code 0); the
command raises — exits non-zero — exactly when the refresh call itself
raises. -/
theorem sync_partial_failures_nonfatal
    (clearResult : Except String Unit)
    (refreshResult : Except String Bool) :
    (sync_user_subs_handle false clearResult (Except.ok false)).raised =
      false ∧
    (MsgStyle.warning, "Some subscriptions could not be updated") ∈
      (sync_user_subs_handle false clearResult (Except.ok false)).messages ∧
    ((sync_user_subs_handle false clearResult refreshResult).raised = true ↔
      ∃ e, refreshResult = Except.error e) := by
  refine ⟨rfl, by simp [sync_user_subs_handle], ?_⟩
  cases refreshResult with
  | ok b => cases b <;> simp [sync_user_subs_handle]
  | error e => simp [sync_user_subs_handle]

theorem invoice_decimal_no_update (db : CustomerDb) (ev : WebhookEvent)
    (hdec : ∀ c ∈ db, ∃ q, c.lifetime_value = PyNum.pyDecimal q)
    (ht : pyStartsWith ev.event_type "invoice." = true)
    (ht2 : pyStartsWith ev.event_type "customer.subscription." = false) :
    handle_subscription_webhook db ev = (false, db) := by
  cases hc : ev.data.customer with
  | none => simp [handle_subscription_webhook, ht, ht2, hc]
  | some cid =>
    by_cases hcond : cid ≠ "" ∧
        pyGtZero (PyNum.pyFloat ((ev.data.amount_paid : ℚ) / 100)) = true
    · by_cases hlen : (matchingCustomers db cid).length = 1
      · obtain ⟨c, hceq⟩ := List.length_eq_one.mp hlen
        have hcin : c ∈ matchingCustomers db cid := by
          rw [hceq]
          exact List.mem_singleton_self c
        have hmem : c ∈ db := List.mem_of_mem_filter hcin
        obtain ⟨q, hq⟩ := hdec c hmem
        simp [handle_subscription_webhook, ht, ht2, hc, hcond, hlen, hceq,
          hq, pyAdd]
      · simp [handle_subscription_webhook, ht, ht2, hc, hcond, hlen]
    · simp [handle_subscription_webhook, ht, ht2, hc, hcond]

theorem example_row_decimal :
    ∀ c ∈ [exampleCustomerRow], ∃ q, c.lifetime_value = PyNum.pyDecimal q :=
  by
    intro c hc
    rw [List.mem_singleton] at hc
    subst hc
    exact ⟨0, rfl⟩

/-- C9, evaluated at the failing input: an `invoice.*` event with
`amount_paid = 500` cents and a matching local customer whose
`lifetime_value` is Decimal-typed.  The handler returns `False` with the
customer untouched — `lifetime_value += amount_paid` mixes Decimal and
float and raises `TypeError`, caught by the outer handler — so the claimed
increase by `amount_paid / 100` with a `True` return never happens. -/
theorem invoice_webhook_ltv_update_raises :
    handle_subscription_webhook [exampleCustomerRow] exampleInvoiceEvent =
      (false, [exampleCustomerRow]) :=
  invoice_decimal_no_update [exampleCustomerRow] exampleInvoiceEvent
    example_row_decimal (by decide) (by decide)

/-- C10 counterexample: processing the identical invoice event twice leaves
the customer table exactly as it started; in particular the lifetime value
is not `0 + 2 * (500 / 100) = 10` as the double-counting claim predicts —
nothing is counted at all. -/
theorem invoice_webhook_redelivery_no_double_count :
    (handle_subscription_webhook
        (handle_subscription_webhook [exampleCustomerRow]
          exampleInvoiceEvent).2
        exampleInvoiceEvent).2 = [exampleCustomerRow] ∧
    (handle_subscription_webhook
        (handle_subscription_webhook [exampleCustomerRow]
          exampleInvoiceEvent).2
        exampleInvoiceEvent).2 ≠
      [{ exampleCustomerRow with lifetime_value := PyNum.pyDecimal 10 }] := by
  have h1 : handle_subscription_webhook [exampleCustomerRow]
      exampleInvoiceEvent = (false, [exampleCustomerRow]) :=
    invoice_decimal_no_update [exampleCustomerRow] exampleInvoiceEvent
      example_row_decimal (by decide) (by decide)
  have h2 : (handle_subscription_webhook
      (handle_subscription_webhook [exampleCustomerRow]
        exampleInvoiceEvent).2 exampleInvoiceEvent).2 =
      [exampleCustomerRow] := by
    rw [h1]
    show (handle_subscription_webhook [exampleCustomerRow]
      exampleInvoiceEvent).2 = [exampleCustomerRow]
    rw [h1]
  refine ⟨h2, ?_⟩
  rw [h2]
  intro hcontra
  simp [exampleCustomerRow] at hcontra

/-- C10 as amended: the handler reads no event id and performs no
de-duplication, but redelivery of an `invoice.*` event is not
double-counted either: with Decimal-typed lifetime values every delivery
returns `False` and leaves the table unchanged, whether processed once or
twice. -/
theorem invoice_events_never_accumulate (db : CustomerDb) (ev : WebhookEvent)
    (hdec : ∀ c ∈ db, ∃ q, c.lifetime_value = PyNum.pyDecimal q)
    (ht : pyStartsWith ev.event_type "invoice." = true)
    (ht2 : pyStartsWith ev.event_type "customer.subscription." = false) :
    handle_subscription_webhook db ev = (false, db) ∧
    handle_subscription_webhook (handle_subscription_webhook db ev).2 ev =
      (false, db) := by
  have h1 := invoice_decimal_no_update db ev hdec ht ht2
  refine ⟨h1, ?_⟩
  rw [h1]
  exact h1

/-- Closed witness for `invoice_events_never_accumulate` on the concrete
customer row and invoice event. -/
theorem invoice_events_never_accumulate_witness :
    handle_subscription_webhook [exampleCustomerRow] exampleInvoiceEvent =
      (false, [exampleCustomerRow]) ∧
    handle_subscription_webhook
        (handle_subscription_webhook [exampleCustomerRow]
          exampleInvoiceEvent).2 exampleInvoiceEvent =
      (false, [exampleCustomerRow]) :=
  invoice_events_never_accumulate [exampleCustomerRow] exampleInvoiceEvent
    (by
      intro c hc
      rw [List.mem_singleton] at hc
      subst hc
      exact ⟨0, rfl⟩)
    (by decide) (by decide)

end DjangoSaas
